import Mathlib

/- Verification development for the Job_Analysis repository.

   The Python sources (main.py, job_analyzer.py, report_generator.py) are
   shallowly embedded below.  Python strings are modelled as lists of
   characters (`PyStr`); Python's ASCII-level string operations
   (split, strip, lower, join, substring membership) are given executable
   definitions mirroring the CPython semantics used by the code.
   Network I/O inside fetcher bodies cannot be embedded; each fetcher's
   `try:` body is therefore a parameter of type `Except` whose `.error`
   case corresponds to an exception escaping the body, and the embedded
   function is the exception handler at the call site. -/

namespace JobAnalysis

/-- Python strings as character lists. -/
abbrev PyStr := List Char

/-- Coerce a Lean string literal to the Python-string model. -/
def pyStr (s : String) : PyStr := s.data

/-- Python `str.lower()` (ASCII range, as in `Char.toLower`). -/
def lowerStr (s : PyStr) : PyStr := s.map Char.toLower

/-- Python `str.strip()`: remove leading and trailing whitespace. -/
def strip (s : PyStr) : PyStr :=
  ((s.dropWhile Char.isWhitespace).reverse.dropWhile Char.isWhitespace).reverse

/-- Python `str.split(',')`: split at every comma; `"".split(',') = [""]`. -/
def splitOnComma : PyStr → List PyStr
  | [] => [[]]
  | c :: t =>
    if c = ',' then [] :: splitOnComma t
    else
      match splitOnComma t with
      | [] => [[c]]
      | h :: r => (c :: h) :: r

/-- Python `sep.join(parts)`. -/
def pyJoin (sep : PyStr) : List PyStr → PyStr
  | [] => []
  | [x] => x
  | x :: xs => x ++ sep ++ pyJoin sep xs

/-- Helper for the substring test: does `hay` start with `needle`? -/
def leadsWith : PyStr → PyStr → Bool
  | [], _ => true
  | _ :: _, [] => false
  | a :: as, b :: bs => a = b && leadsWith as bs

/-- Python substring membership `needle in hay`. -/
def containsSub (needle : PyStr) : PyStr → Bool
  | [] => needle.isEmpty
  | c :: t => leadsWith needle (c :: t) || containsSub needle t

/-- Decimal rendering of a natural number, as Python `str(n)` / f-strings. -/
def natStr (n : Nat) : PyStr := (Nat.repr n).data

/-- Decimal rendering of an integer, as Python `str(n)` / f-strings. -/
def intStr (n : Int) : PyStr := (toString n).data

/- ------------------------------------------------------------------
   main.py, CareerResearchTool.parse_query (lines 23-32)
   ------------------------------------------------------------------ -/

/-- `main.py` lines 23-32: split the query on commas, strip each of the
first five parts, defaulting absent fields to `""` except the fifth
(year), which defaults to `"2025"`. -/
def parse_query (query : PyStr) : PyStr × PyStr × PyStr × PyStr × PyStr :=
  let parts := splitOnComma query
  let degree := if 0 < parts.length then strip (parts.getD 0 []) else []
  let experience := if 1 < parts.length then strip (parts.getD 1 []) else []
  let skills := if 2 < parts.length then strip (parts.getD 2 []) else []
  let job_market := if 3 < parts.length then strip (parts.getD 3 []) else []
  let year := if 4 < parts.length then strip (parts.getD 4 []) else pyStr "2025"
  (degree, experience, skills, job_market, year)

/-- The i-th comma-delimited field of `q`, stripped (`""` when absent). -/
def queryField (q : PyStr) (i : Nat) : PyStr :=
  strip ((splitOnComma q).getD i [])

/-- Rebuild the comma-joined string from the five parsed fields. -/
def joinFields (t : PyStr × PyStr × PyStr × PyStr × PyStr) : PyStr :=
  pyJoin (pyStr ",") [t.1, t.2.1, t.2.2.1, t.2.2.2.1, t.2.2.2.2]

/- ------------------------------------------------------------------
   Basic lemmas about strip / splitOnComma / pyJoin
   ------------------------------------------------------------------ -/

theorem splitOnComma_ne_nil (s : PyStr) : splitOnComma s ≠ [] := by
  cases s with
  | nil => simp [splitOnComma]
  | cons c t =>
    simp only [splitOnComma]
    split
    · simp
    · split <;> simp

theorem length_splitOnComma_pos (s : PyStr) : 0 < (splitOnComma s).length := by
  cases h : splitOnComma s with
  | nil => exact absurd h (splitOnComma_ne_nil s)
  | cons a t => simp

/-- Every part produced by `splitOnComma` is comma-free. -/
theorem splitOnComma_no_comma (s : PyStr) :
    ∀ p ∈ splitOnComma s, ',' ∉ p := by
  induction s with
  | nil => intro p hp; simp [splitOnComma] at hp; simp [hp]
  | cons c t ih =>
    intro p hp
    simp only [splitOnComma] at hp
    by_cases hc : c = ','
    · simp [hc] at hp
      rcases hp with hp | hp
      · simp [hp]
      · exact ih p hp
    · simp [hc] at hp
      rcases ht : splitOnComma t with _ | ⟨h0, r⟩
      · exact absurd ht (splitOnComma_ne_nil t)
      · rw [ht] at hp
        simp at hp
        rcases hp with hp | hp
        · subst hp
          intro hmem
          rcases List.mem_cons.mp hmem with h' | h'
          · exact hc h'.symm
          · exact ih h0 (by simp [ht]) h'
        · exact ih p (by simp [ht, hp])

/-- Splitting a comma-free string yields a single part. -/
theorem splitOnComma_of_no_comma (s : PyStr) (h : ',' ∉ s) :
    splitOnComma s = [s] := by
  induction s with
  | nil => simp [splitOnComma]
  | cons c t ih =>
    have hc : c ≠ ',' := fun hcc => h (by simp [hcc])
    have hnc : (',' : Char) ∉ t := fun hm => h (by simp [hm])
    simp only [splitOnComma]
    rw [if_neg (fun hcc => hc hcc)]
    rw [ih hnc]

/-- Splitting at an explicit comma after a comma-free chunk. -/
theorem splitOnComma_append (x rest : PyStr) (h : ',' ∉ x) :
    splitOnComma (x ++ ',' :: rest) = x :: splitOnComma rest := by
  induction x with
  | nil =>
    simp [splitOnComma]
  | cons c t ih =>
    have hc : c ≠ ',' := fun hcc => h (by simp [hcc])
    have hnc : (',' : Char) ∉ t := fun hm => h (by simp [hm])
    simp only [List.cons_append, splitOnComma, List.append_eq]
    rw [if_neg (fun hcc => hc hcc)]
    rw [ih hnc]

/-- Characters of `strip s` come from `s`. -/
theorem mem_of_mem_strip {c : Char} {s : PyStr} (h : c ∈ strip s) : c ∈ s := by
  unfold strip at h
  rw [List.mem_reverse] at h
  have hsub1 : ((s.dropWhile Char.isWhitespace).reverse.dropWhile Char.isWhitespace).Sublist
      (s.dropWhile Char.isWhitespace).reverse := List.dropWhile_sublist _
  have h1 := hsub1.mem h
  rw [List.mem_reverse] at h1
  have hsub2 : (s.dropWhile Char.isWhitespace).Sublist s := List.dropWhile_sublist _
  exact hsub2.mem h1

theorem dropWhile_self_of_head {p : Char → Bool} {l : PyStr}
    (h : ∀ x, l.head? = some x → p x = false) : l.dropWhile p = l := by
  cases l with
  | nil => rfl
  | cons a t =>
    have := h a rfl
    simp [List.dropWhile_cons, this]

theorem head?_dropWhile_false {p : Char → Bool} {l : PyStr} {x : Char}
    (h : (l.dropWhile p).head? = some x) : p x = false := by
  induction l with
  | nil => simp [List.dropWhile] at h
  | cons a t ih =>
    rw [List.dropWhile_cons] at h
    by_cases hp : p a
    · rw [if_pos hp] at h; exact ih h
    · rw [if_neg hp] at h
      simp at h
      rw [← h]
      simpa using hp

/-- `strip` is idempotent. -/
theorem strip_strip (s : PyStr) : strip (strip s) = strip s := by
  classical
  set w := Char.isWhitespace with hw
  set u := s.dropWhile w with hu
  set d := u.reverse.dropWhile w with hd
  -- head of d.reverse is the head of u (when nonempty), hence not whitespace
  have hdrev : d.reverse.dropWhile w = d.reverse := by
    apply dropWhile_self_of_head
    intro x hx
    -- d is a suffix of u.reverse, so d.reverse is a prefix of u
    have hdecomp : u.reverse.takeWhile w ++ d = u.reverse :=
      List.takeWhile_append_dropWhile w u.reverse
    have hu' : u = d.reverse ++ (u.reverse.takeWhile w).reverse := by
      have := congrArg List.reverse hdecomp
      simpa [List.reverse_append] using this.symm
    have hhead : u.head? = some x := by
      rw [hu']
      cases hdr : d.reverse with
      | nil => rw [hdr] at hx; simp at hx
      | cons a t =>
        rw [hdr] at hx
        simp at hx
        simp [hx]
    have hhead' : (s.dropWhile w).head? = some x := by
      rw [hu] at hhead; exact hhead
    exact head?_dropWhile_false hhead'
  have hdd : d.dropWhile w = d := by
    rw [hd]; exact List.dropWhile_idempotent w u.reverse
  show ((d.reverse.dropWhile w).reverse.dropWhile w).reverse = d.reverse
  rw [hdrev, List.reverse_reverse, hdd]

theorem strip_nil : strip [] = [] := rfl

/-- Evaluation of `parse_query` in terms of `queryField` (shared helper). -/
theorem parse_query_eq (q : PyStr) :
    parse_query q = (queryField q 0, queryField q 1, queryField q 2, queryField q 3,
      if 4 < (splitOnComma q).length then queryField q 4 else pyStr "2025") := by
  have hfield : ∀ i, ¬ i < (splitOnComma q).length →
      queryField q i = [] := by
    intro i hi
    unfold queryField
    rw [List.getD_eq_getElem?_getD, List.getElem?_eq_none (Nat.le_of_not_lt hi)]
    rfl
  simp only [parse_query]
  rw [if_pos (length_splitOnComma_pos q)]
  have e1 : (if 1 < (splitOnComma q).length then strip ((splitOnComma q).getD 1 []) else []) =
      queryField q 1 := by
    by_cases h : 1 < (splitOnComma q).length
    · rw [if_pos h]; rfl
    · rw [if_neg h, hfield 1 h]
  have e2 : (if 2 < (splitOnComma q).length then strip ((splitOnComma q).getD 2 []) else []) =
      queryField q 2 := by
    by_cases h : 2 < (splitOnComma q).length
    · rw [if_pos h]; rfl
    · rw [if_neg h, hfield 2 h]
  have e3 : (if 3 < (splitOnComma q).length then strip ((splitOnComma q).getD 3 []) else []) =
      queryField q 3 := by
    by_cases h : 3 < (splitOnComma q).length
    · rw [if_pos h]; rfl
    · rw [if_neg h, hfield 3 h]
  rw [e1, e2, e3]
  rfl

/-- The field absent from the split defaults to the empty string. -/
theorem queryField_of_out_of_range (q : PyStr) (i : Nat)
    (h : (splitOnComma q).length ≤ i) : queryField q i = [] := by
  unfold queryField
  rw [List.getD_eq_getElem?_getD, List.getElem?_eq_none h]
  rfl

/-- Parsed fields never contain a comma. -/
theorem queryField_no_comma (q : PyStr) (i : Nat) : ',' ∉ queryField q i := by
  intro hmem
  have hmem' := mem_of_mem_strip hmem
  by_cases h : i < (splitOnComma q).length
  · have : (splitOnComma q).getD i [] ∈ splitOnComma q := by
      rw [List.getD_eq_getElem?_getD, List.getElem?_eq_getElem h]
      exact List.getElem_mem h
    exact splitOnComma_no_comma q _ this hmem'
  · rw [List.getD_eq_getElem?_getD, List.getElem?_eq_none (Nat.le_of_not_lt h)] at hmem'
    simp at hmem'

/-- Parsed fields are already stripped. -/
theorem strip_queryField (q : PyStr) (i : Nat) :
    strip (queryField q i) = queryField q i :=
  strip_strip _

/-- C4: `parse_query` splits on commas, trims each of the five positional
fields, and defaults absent fields to the empty string — except the fifth
field (year), which defaults to `"2025"`, refuting the claim that all
missing trailing fields become the empty string.  Counterexample: a
single-field query. -/
theorem parse_query_year_default_cex :
    (parse_query (pyStr "cs")).2.2.2.2 = pyStr "2025" ∧
      (pyStr "2025" : PyStr) ≠ pyStr "" := by
  constructor
  · decide
  · decide

/-- C4 (amended): `parse_query` returns the comma-split, whitespace-trimmed
fields in fixed position order (degree, experience, skills, job_market,
year); each absent field among the first four is the empty string, while an
absent fifth field (year) defaults to `"2025"`. -/
theorem parse_query_fields (q : PyStr) :
    parse_query q = (queryField q 0, queryField q 1, queryField q 2, queryField q 3,
        if 4 < (splitOnComma q).length then queryField q 4 else pyStr "2025")
      ∧ ∀ i, (splitOnComma q).length ≤ i → queryField q i = [] :=
  ⟨parse_query_eq q, fun i h => queryField_of_out_of_range q i h⟩

/-- C4 witness: evaluating the amended claim on the query "a,b". -/
theorem parse_query_fields_witness :
    (splitOnComma (pyStr "a,b")).length ≤ 3 ∧ queryField (pyStr "a,b") 3 = [] :=
  ⟨by decide, (parse_query_fields (pyStr "a,b")).2 3 (by decide)⟩

/-- C5: parsing is idempotent — re-parsing the comma-joined parsed fields
returns the same fields. -/
theorem parse_query_idempotent (q : PyStr) :
    parse_query (joinFields (parse_query q)) = parse_query q := by
  rw [parse_query_eq q]
  set y := (if 4 < (splitOnComma q).length then queryField q 4 else pyStr "2025") with hy
  have hyc : ',' ∉ y := by
    rw [hy]; split
    · exact queryField_no_comma q 4
    · decide
  have hys : strip y = y := by
    rw [hy]; split
    · exact strip_queryField q 4
    · decide
  have hcomma : pyStr "," = [','] := rfl
  have hsplit : splitOnComma (joinFields
      (queryField q 0, queryField q 1, queryField q 2, queryField q 3, y)) =
      [queryField q 0, queryField q 1, queryField q 2, queryField q 3, y] := by
    show splitOnComma (queryField q 0 ++ pyStr "," ++
      (queryField q 1 ++ pyStr "," ++
        (queryField q 2 ++ pyStr "," ++
          (queryField q 3 ++ pyStr "," ++ y)))) = _
    rw [hcomma]
    simp only [List.append_assoc, List.singleton_append]
    rw [splitOnComma_append _ _ (queryField_no_comma q 0)]
    rw [splitOnComma_append _ _ (queryField_no_comma q 1)]
    rw [splitOnComma_append _ _ (queryField_no_comma q 2)]
    rw [splitOnComma_append _ _ (queryField_no_comma q 3)]
    rw [splitOnComma_of_no_comma _ hyc]
  simp only [parse_query, hsplit]
  norm_num [List.getD, strip_queryField, hys]

/- ------------------------------------------------------------------
   main.py, main() prompt-loop body (lines 687-705)
   ------------------------------------------------------------------ -/

/-- Observable outcome of one iteration of the `main()` prompt loop:
break out (`exit`), silently continue (`skip`), continue with a printed
message and no report (`reject`), or proceed to `generate_career_report`
(`research`) — the only branch that issues network calls. -/
inductive LoopAction where
  | exit : LoopAction
  | skip : LoopAction
  | reject : PyStr → LoopAction
  | research : PyStr → PyStr → PyStr → PyStr → PyStr → LoopAction
deriving DecidableEq

def exitTokens : List PyStr := [pyStr "quit", pyStr "exit", pyStr "q"]

def rejectMsg : PyStr := pyStr "❌ Please enter at least a degree/qualification"

/-- `main.py` lines 687-705: strip the raw input; break on an exit token
(case-insensitive); silently continue on an empty line; reject with a
message when the parsed degree is empty; otherwise run the research
pipeline. -/
def main_iteration (raw : PyStr) : LoopAction :=
  let user_input := strip raw
  if lowerStr user_input ∈ exitTokens then .exit
  else if user_input = [] then .skip
  else
    let p := parse_query user_input
    if p.1 = [] then .reject rejectMsg
    else .research p.1 p.2.1 p.2.2.1 p.2.2.2.1 p.2.2.2.2

theorem all_ws_of_strip_eq_nil {s : PyStr} (h : strip s = []) :
    ∀ c ∈ s, Char.isWhitespace c := by
  intro c hc
  unfold strip at h
  rw [List.reverse_eq_nil_iff, List.dropWhile_eq_nil_iff] at h
  have hdrop : ∀ x ∈ s.dropWhile Char.isWhitespace, Char.isWhitespace x := by
    intro x hx; exact h x (List.mem_reverse.mpr hx)
  have hdecomp : s.takeWhile Char.isWhitespace ++ s.dropWhile Char.isWhitespace = s :=
    List.takeWhile_append_dropWhile Char.isWhitespace s
  rw [← hdecomp] at hc
  rcases List.mem_append.mp hc with h1 | h2
  · exact List.mem_takeWhile_imp h1
  · exact hdrop c h2

theorem splitOnComma_head_cons {c : Char} (t : PyStr) (hc : c ≠ ',') :
    ∃ r, (splitOnComma (c :: t)).getD 0 [] = c :: r := by
  rcases ht : splitOnComma t with _ | ⟨h0, r0⟩
  · exact absurd ht (splitOnComma_ne_nil t)
  · refine ⟨h0, ?_⟩
    simp only [splitOnComma]
    rw [if_neg hc, ht]
    rfl

theorem exit_token_head {u : PyStr} (h : lowerStr u ∈ exitTokens) :
    ∃ c t, u = c :: t ∧ (Char.toLower c = 'q' ∨ Char.toLower c = 'e') := by
  cases u with
  | nil =>
    simp only [exitTokens, List.mem_cons, List.not_mem_nil, or_false] at h
    rcases h with h | h | h <;> exact absurd h (by decide)
  | cons c t =>
    refine ⟨c, t, rfl, ?_⟩
    simp only [exitTokens, List.mem_cons, List.not_mem_nil, or_false] at h
    rcases h with h | h | h
    · have h2 : Char.toLower c :: lowerStr t = 'q' :: pyStr "uit" := h
      exact Or.inl (List.cons.injEq _ _ _ _ ▸ h2).1
    · have h2 : Char.toLower c :: lowerStr t = 'e' :: pyStr "xit" := h
      exact Or.inr (List.cons.injEq _ _ _ _ ▸ h2).1
    · have h2 : Char.toLower c :: lowerStr t = 'q' :: ([] : PyStr) := h
      exact Or.inl (List.cons.injEq _ _ _ _ ▸ h2).1

theorem ws_not_token_head {c : Char} (h : Char.isWhitespace c = true) :
    Char.toLower c ≠ 'q' ∧ Char.toLower c ≠ 'e' := by
  have hcase : ((c = ' ' ∨ c = '\t') ∨ c = '\r') ∨ c = '\n' := by
    simpa [Char.isWhitespace] using h
  rcases hcase with ((h | h) | h) | h <;> subst h <;> exact ⟨by decide, by decide⟩

/-- An input whose parsed degree is empty cannot be an exit token. -/
theorem not_exit_of_empty_degree {u : PyStr} (h : (parse_query u).1 = []) :
    lowerStr u ∉ exitTokens := by
  intro hmem
  obtain ⟨c, t, rfl, hc⟩ := exit_token_head hmem
  have hcc : c ≠ ',' := by
    intro hcc; subst hcc
    rcases hc with hc | hc <;> exact absurd hc (by decide)
  obtain ⟨r, hr⟩ := splitOnComma_head_cons t hcc
  rw [parse_query_eq] at h
  have hdeg : strip ((splitOnComma (c :: t)).getD 0 []) = [] := h
  rw [hr] at hdeg
  have hwc : Char.isWhitespace c := all_ws_of_strip_eq_nil hdeg c (by simp)
  rcases hc with hc | hc
  · exact (ws_not_token_head hwc).1 hc
  · exact (ws_not_token_head hwc).2 hc

/-- C6 counterexample: the empty input has an empty first comma-delimited
field, yet the loop continues silently (`skip`) without the user-facing
rejection message. -/
theorem empty_input_skipped_cex :
    (parse_query (strip [])).1 = [] ∧
      main_iteration [] = LoopAction.skip ∧
      LoopAction.skip ≠ LoopAction.reject rejectMsg := by
  refine ⟨by decide, by decide, by decide⟩

/-- C6 (amended): an input whose first comma-delimited field is empty after
trimming never reaches the research pipeline (hence no network call and no
report); when the stripped input is nonempty the loop rejects it with the
user-facing message, and when the stripped input is empty the loop
continues silently without a message. -/
theorem empty_degree_rejected (raw : PyStr)
    (h : (parse_query (strip raw)).1 = []) :
    (∀ d e s j y, main_iteration raw ≠ LoopAction.research d e s j y)
  ∧ (strip raw ≠ [] → main_iteration raw = LoopAction.reject rejectMsg)
  ∧ (strip raw = [] → main_iteration raw = LoopAction.skip) := by
  have hnotexit : lowerStr (strip raw) ∉ exitTokens := not_exit_of_empty_degree h
  refine ⟨?_, ?_, ?_⟩
  · intro d e s j y
    simp only [main_iteration]
    rw [if_neg hnotexit]
    by_cases hnil : strip raw = []
    · rw [if_pos hnil]
      intro hcontra; cases hcontra
    · rw [if_neg hnil, if_pos h]
      intro hcontra; cases hcontra
  · intro hnil
    simp only [main_iteration]
    rw [if_neg hnotexit, if_neg hnil, if_pos h]
  · intro hnil
    simp only [main_iteration]
    rw [if_neg hnotexit, if_pos hnil]

/-- C6 witness: the input ",physics" has an empty first field and is
rejected with the user-facing message. -/
theorem empty_degree_rejected_witness :
    (parse_query (strip (pyStr ",physics"))).1 = [] ∧
      main_iteration (pyStr ",physics") = LoopAction.reject rejectMsg :=
  ⟨by decide, (empty_degree_rejected (pyStr ",physics") (by decide)).2.1 (by decide)⟩

/- ------------------------------------------------------------------
   job_analyzer.py, JobMarketAnalyzer.analyze_trend_content (lines 673-691)
   ------------------------------------------------------------------ -/

/-- A record produced by `search_job_market_trends`: title/link/snippet. -/
structure TrendArticle where
  title : PyStr
  link : PyStr
  snippet : PyStr
deriving DecidableEq

def positive_indicators : List PyStr :=
  [pyStr "growth", pyStr "increasing", pyStr "demand", pyStr "expanding", pyStr "opportunity"]

def negative_indicators : List PyStr :=
  [pyStr "decline", pyStr "decreasing", pyStr "layoffs", pyStr "reduction", pyStr "challenging"]

/-- `' '.join(article['snippet'].lower() for article in articles)`:
only the snippets enter the analysis — titles are ignored. -/
def trendContent (articles : List TrendArticle) : PyStr :=
  pyJoin (pyStr " ") (articles.map (fun a => lowerStr a.snippet))

/-- `sum(1 for indicator in positive_indicators if indicator in all_content)` —
the number of distinct positive vocabulary words present as substrings. -/
def posHits (articles : List TrendArticle) : Nat :=
  (positive_indicators.filter (fun v => containsSub v (trendContent articles))).length

/-- The number of distinct negative vocabulary words present as substrings. -/
def negHits (articles : List TrendArticle) : Nat :=
  (negative_indicators.filter (fun v => containsSub v (trendContent articles))).length

def posMsg (p n : Nat) : PyStr :=
  pyStr "Positive trend indicators (found " ++ natStr p ++
    pyStr " positive vs " ++ natStr n ++ pyStr " negative signals)"

def negMsg (n p : Nat) : PyStr :=
  pyStr "Negative trend indicators (found " ++ natStr n ++
    pyStr " negative vs " ++ natStr p ++ pyStr " positive signals)"

/-- `job_analyzer.py` lines 673-691. -/
def analyze_trend_content (articles : List TrendArticle) : PyStr :=
  if articles.isEmpty then pyStr "No trend data available"
  else
    let positive_count := posHits articles
    let negative_count := negHits articles
    if negative_count < positive_count then posMsg positive_count negative_count
    else if positive_count < negative_count then negMsg negative_count positive_count
    else pyStr "Mixed trend indicators (balanced positive/negative signals)"

/-- C1 counterexample: (i) positive words appearing only in the title are
not counted — an article with three positive title words and one negative
snippet word classifies as Negative, where the claim requires Positive;
(ii) empty input yields "No trend data available", not "Neutral";
(iii) repeated occurrences are not counted — 3 positive occurrences vs 2
negative occurrences of distinct-word counts 1 vs 1 is a tie ("Mixed..."),
where the claim's occurrence counting requires Positive. -/
theorem analyze_trend_content_cex :
    analyze_trend_content
        [⟨pyStr "growth demand opportunity", pyStr "", pyStr "decline"⟩] = negMsg 1 0
  ∧ analyze_trend_content [] = pyStr "No trend data available"
  ∧ (pyStr "No trend data available" : PyStr) ≠ pyStr "Neutral"
  ∧ analyze_trend_content
        [⟨pyStr "", pyStr "", pyStr "growth growth growth decline decline"⟩] =
      pyStr "Mixed trend indicators (balanced positive/negative signals)" := by
  refine ⟨by decide, by decide, by decide, by decide⟩

/-- C1 (amended): the classifier counts the distinct words of the fixed
positive and negative vocabularies occurring (case-insensitively) in the
space-joined snippets of the articles — titles are ignored — and returns
"Positive trend indicators (found p positive vs n negative signals)" when
p > n, the symmetric "Negative trend indicators ..." string when n > p,
"Mixed trend indicators (balanced positive/negative signals)" on a tie,
and "No trend data available" on empty input. -/
theorem analyze_trend_content_spec (articles : List TrendArticle) :
    (articles = [] → analyze_trend_content articles = pyStr "No trend data available")
  ∧ (articles ≠ [] → negHits articles < posHits articles →
      analyze_trend_content articles = posMsg (posHits articles) (negHits articles))
  ∧ (articles ≠ [] → posHits articles < negHits articles →
      analyze_trend_content articles = negMsg (negHits articles) (posHits articles))
  ∧ (articles ≠ [] → posHits articles = negHits articles →
      analyze_trend_content articles =
        pyStr "Mixed trend indicators (balanced positive/negative signals)")
  ∧ (∀ bs : List TrendArticle,
      articles.map TrendArticle.snippet = bs.map TrendArticle.snippet →
      analyze_trend_content articles = analyze_trend_content bs) := by
  have hne : ∀ (l : List TrendArticle), l ≠ [] → l.isEmpty = false := by
    intro l hl
    cases l with
    | nil => exact absurd rfl hl
    | cons a t => rfl
  refine ⟨?_, ?_, ?_, ?_, ?_⟩
  · intro hnil; subst hnil; rfl
  · intro hne' hlt
    simp only [analyze_trend_content, hne articles hne', Bool.false_eq_true, if_false]
    rw [if_pos hlt]
  · intro hne' hlt
    simp only [analyze_trend_content, hne articles hne', Bool.false_eq_true, if_false]
    rw [if_neg (by omega), if_pos hlt]
  · intro hne' heq
    simp only [analyze_trend_content, hne articles hne', Bool.false_eq_true, if_false]
    rw [if_neg (by omega), if_neg (by omega)]
  · intro bs hsnip
    have hcontent : trendContent articles = trendContent bs := by
      unfold trendContent
      rw [show (fun a : TrendArticle => lowerStr a.snippet) =
            (lowerStr ∘ TrendArticle.snippet) from rfl]
      rw [← List.map_map lowerStr TrendArticle.snippet articles,
          ← List.map_map lowerStr TrendArticle.snippet bs, hsnip]
    have hlen : articles.isEmpty = bs.isEmpty := by
      have := congrArg List.length hsnip
      simp only [List.length_map] at this
      cases articles <;> cases bs <;> simp_all
    unfold analyze_trend_content posHits negHits
    rw [hcontent, hlen]

/-- C1 witness: a snippet with three positive-vocabulary hits and one
negative-vocabulary hit classifies as "Positive trend indicators ...". -/
theorem analyze_trend_content_spec_witness :
    ([⟨pyStr "", pyStr "", pyStr "growth in demand is an opportunity despite decline"⟩]
        : List TrendArticle) ≠ []
  ∧ posHits [⟨pyStr "", pyStr "", pyStr "growth in demand is an opportunity despite decline"⟩] = 3
  ∧ negHits [⟨pyStr "", pyStr "", pyStr "growth in demand is an opportunity despite decline"⟩] = 1
  ∧ analyze_trend_content
      [⟨pyStr "", pyStr "", pyStr "growth in demand is an opportunity despite decline"⟩] =
      posMsg (posHits [⟨pyStr "", pyStr "",
          pyStr "growth in demand is an opportunity despite decline"⟩])
        (negHits [⟨pyStr "", pyStr "",
          pyStr "growth in demand is an opportunity despite decline"⟩]) :=
  ⟨by decide, by decide, by decide,
    (analyze_trend_content_spec _).2.1 (by decide) (by decide)⟩

/- ------------------------------------------------------------------
   main.py, generate_career_report results and _generate_career_summary
   (lines 279-393)
   ------------------------------------------------------------------ -/

/-- One extracted record.  The per-source record shapes vary (Google News
articles, search-result insights, Reddit posts, ...); optional fields model
Python dict keys that may be absent.  `score`/`comments` are the Reddit
integers. -/
structure Item where
  title : Option PyStr
  name : Option PyStr
  url : Option PyStr
  link : Option PyStr
  description : Option PyStr
  summary : Option PyStr
  published : Option PyStr
  created : Option PyStr
  source : Option PyStr
  platform : Option PyStr
  score : Option Int
  comments : Option Int
deriving DecidableEq

/-- The dict built by `analyze_skill_trends` on success (three fixed keys). -/
structure SkillTrends where
  high_demand_skills : List PyStr
  emerging_skills : List PyStr
  traditional_skills : List PyStr
deriving DecidableEq

/-- The `self.results` mapping of `CareerResearchTool` after the nine
assignments in `generate_career_report` (before the summary is attached).
`skill_trends = none` models the empty dict `{}` returned by
`analyze_skill_trends` when its body raises. -/
structure CareerResults where
  career_opportunities : List Item
  required_skills : List Item
  job_market_trends : List Item
  salary_information : List Item
  learning_resources : List Item
  community_discussions : List Item
  linkedin_insights : List Item
  quora_insights : List Item
  skill_trends : Option SkillTrends
deriving DecidableEq

/-- Python `len` of the skill-trends value: `len({}) = 0`, and the success
dict always has its three fixed keys. -/
def trendsLen : Option SkillTrends → Nat
  | none => 0
  | some _ => 3

/-- `(key, len(value))` pairs of `self.results.items()` in insertion
order. -/
def results_items (r : CareerResults) : List (PyStr × Nat) :=
  [(pyStr "career_opportunities", r.career_opportunities.length),
   (pyStr "required_skills", r.required_skills.length),
   (pyStr "job_market_trends", r.job_market_trends.length),
   (pyStr "salary_information", r.salary_information.length),
   (pyStr "learning_resources", r.learning_resources.length),
   (pyStr "community_discussions", r.community_discussions.length),
   (pyStr "linkedin_insights", r.linkedin_insights.length),
   (pyStr "quora_insights", r.quora_insights.length),
   (pyStr "skill_trends", trendsLen r.skill_trends)]

/-- `main.py` lines 339-340: sum of `len(items)` over results entries whose
key is not 'summary' or 'skill_trends'. -/
def total_sources (r : CareerResults) : Nat :=
  ((results_items r).filter
      (fun kv => kv.1 ∉ [pyStr "summary", pyStr "skill_trends"])).foldl
    (fun acc kv => acc + kv.2) 0

/-- `main.py` lines 343-345. -/
def opportunity_indicators (r : CareerResults) : Nat :=
  r.career_opportunities.length + r.job_market_trends.length +
    r.salary_information.length

/-- `main.py` lines 347-354: threshold bucketing of the opportunity
indicator count. -/
def market_outlook_label (n : Nat) : PyStr :=
  if 15 < n then pyStr "Very Positive"
  else if 8 < n then pyStr "Positive"
  else if 3 < n then pyStr "Moderate"
  else pyStr "Limited Data"

def results_keys (r : CareerResults) : List PyStr :=
  (results_items r).map Prod.fst

/-- `main.py` lines 369-393. -/
def extract_key_findings (r : CareerResults) : List PyStr :=
  (if r.career_opportunities.isEmpty then [] else
    [pyStr "Found " ++ natStr r.career_opportunities.length ++
      pyStr " recent career opportunity articles"]) ++
  (match r.skill_trends with
   | some t =>
      if t.high_demand_skills.isEmpty then [] else
        [pyStr "High demand skills identified: " ++
          pyJoin (pyStr ", ") t.high_demand_skills]
   | none => []) ++
  (if r.learning_resources.isEmpty then [] else
    [pyStr "Available learning resources: " ++ natStr r.learning_resources.length ++
      pyStr " courses/certifications"]) ++
  (if r.community_discussions.isEmpty then [] else
    [pyStr "Active community discussions: " ++
      natStr r.community_discussions.length ++ pyStr " threads"])

/-- The summary dict returned by `_generate_career_summary`
(`report_generated` is the formatted wall-clock time, an environment
input). -/
structure Summary where
  degree : PyStr
  experience_level : PyStr
  skills_focus : PyStr
  job_market : PyStr
  target_year : PyStr
  total_sources_found : Nat
  market_outlook : PyStr
  career_areas_covered : List PyStr
  report_generated : PyStr
  key_findings : List PyStr
deriving DecidableEq

/-- `main.py` lines 337-367. -/
def generate_career_summary (r : CareerResults)
    (degree experience skills job_market year now : PyStr) : Summary :=
  { degree := degree
    experience_level := experience
    skills_focus := skills
    job_market := job_market
    target_year := year
    total_sources_found := total_sources r
    market_outlook := market_outlook_label (opportunity_indicators r)
    career_areas_covered := results_keys r
    report_generated := now
    key_findings := extract_key_findings r }

/-- Helper: the exclusion filter keeps exactly the eight list-valued
sources. -/
theorem total_sources_eq (r : CareerResults) :
    total_sources r = r.career_opportunities.length + r.required_skills.length +
      r.job_market_trends.length + r.salary_information.length +
      r.learning_resources.length + r.community_discussions.length +
      r.linkedin_insights.length + r.quora_insights.length := by
  have hfilter : (results_items r).filter
      (fun kv => kv.1 ∉ [pyStr "summary", pyStr "skill_trends"]) =
      [(pyStr "career_opportunities", r.career_opportunities.length),
       (pyStr "required_skills", r.required_skills.length),
       (pyStr "job_market_trends", r.job_market_trends.length),
       (pyStr "salary_information", r.salary_information.length),
       (pyStr "learning_resources", r.learning_resources.length),
       (pyStr "community_discussions", r.community_discussions.length),
       (pyStr "linkedin_insights", r.linkedin_insights.length),
       (pyStr "quora_insights", r.quora_insights.length)] := rfl
  unfold total_sources
  rw [hfilter]
  simp only [List.foldl_cons, List.foldl_nil]
  omega

/-- C2: the market outlook is computed from the single integer
`opportunity_indicators` (the summed lengths of the career-opportunities,
job-market-trends and salary-information lists), bucketed into exactly the
four fixed labels by the fixed thresholds >15, >8, >3, else; the sample
inputs 16, 9, 4, 0 produce the four tiers in descending order. -/
theorem market_outlook_tiers :
    (∀ r d e s j y now, (generate_career_summary r d e s j y now).market_outlook =
        market_outlook_label (opportunity_indicators r))
  ∧ (∀ r, opportunity_indicators r = r.career_opportunities.length +
        r.job_market_trends.length + r.salary_information.length)
  ∧ (∀ n, 15 < n → market_outlook_label n = pyStr "Very Positive")
  ∧ (∀ n, 8 < n → n ≤ 15 → market_outlook_label n = pyStr "Positive")
  ∧ (∀ n, 3 < n → n ≤ 8 → market_outlook_label n = pyStr "Moderate")
  ∧ (∀ n, n ≤ 3 → market_outlook_label n = pyStr "Limited Data")
  ∧ market_outlook_label 16 = pyStr "Very Positive"
  ∧ market_outlook_label 9 = pyStr "Positive"
  ∧ market_outlook_label 4 = pyStr "Moderate"
  ∧ market_outlook_label 0 = pyStr "Limited Data" := by
  refine ⟨fun r d e s j y now => rfl, fun r => rfl, ?_, ?_, ?_, ?_,
    by decide, by decide, by decide, by decide⟩
  · intro n h
    unfold market_outlook_label
    rw [if_pos h]
  · intro n h1 h2
    unfold market_outlook_label
    rw [if_neg (by omega), if_pos h1]
  · intro n h1 h2
    unfold market_outlook_label
    rw [if_neg (by omega), if_neg (by omega), if_pos h1]
  · intro n h1
    unfold market_outlook_label
    rw [if_neg (by omega), if_neg (by omega), if_neg (by omega)]

/-- C2 witness: the four tier hypotheses discharged at 16, 9, 4 and 0. -/
theorem market_outlook_tiers_witness :
    market_outlook_label 16 = pyStr "Very Positive"
  ∧ market_outlook_label 9 = pyStr "Positive"
  ∧ market_outlook_label 4 = pyStr "Moderate"
  ∧ market_outlook_label 0 = pyStr "Limited Data" :=
  ⟨market_outlook_tiers.2.2.1 16 (by decide),
   market_outlook_tiers.2.2.2.1 9 (by decide) (by decide),
   market_outlook_tiers.2.2.2.2.1 4 (by decide) (by decide),
   market_outlook_tiers.2.2.2.2.2.1 0 (by decide)⟩

def sourceLists (r : CareerResults) : List (List Item) :=
  [r.career_opportunities, r.required_skills, r.job_market_trends,
   r.salary_information, r.learning_resources, r.community_discussions,
   r.linkedin_insights, r.quora_insights]

/-- The number of sources with a non-empty result list. -/
def numNonemptySources (r : CareerResults) : Nat :=
  ((sourceLists r).filter (fun l => !l.isEmpty)).length

/-- C8: `total_sources_found` equals the sum of the per-source list
lengths, excluding the non-list keys 'summary' and 'skill_trends'; when
every fetcher returns exactly one record it equals the number of sources
with non-empty results. -/
theorem total_sources_found_spec :
    (∀ r d e s j y now, (generate_career_summary r d e s j y now).total_sources_found =
        total_sources r)
  ∧ (∀ r : CareerResults, total_sources r =
      r.career_opportunities.length + r.required_skills.length +
      r.job_market_trends.length + r.salary_information.length +
      r.learning_resources.length + r.community_discussions.length +
      r.linkedin_insights.length + r.quora_insights.length)
  ∧ (∀ r : CareerResults,
      r.career_opportunities.length = 1 → r.required_skills.length = 1 →
      r.job_market_trends.length = 1 → r.salary_information.length = 1 →
      r.learning_resources.length = 1 → r.community_discussions.length = 1 →
      r.linkedin_insights.length = 1 → r.quora_insights.length = 1 →
      total_sources r = numNonemptySources r ∧ numNonemptySources r = 8) := by
  have hne : ∀ l : List Item, l.length = 1 → l.isEmpty = false := by
    intro l hl
    cases l with
    | nil => simp at hl
    | cons a t => rfl
  refine ⟨fun r d e s j y now => rfl, fun r => total_sources_eq r, ?_⟩
  intro r h1 h2 h3 h4 h5 h6 h7 h8
  have hcount : numNonemptySources r = 8 := by
    unfold numNonemptySources sourceLists
    simp only [List.filter_cons, hne _ h1, hne _ h2, hne _ h3, hne _ h4,
      hne _ h5, hne _ h6, hne _ h7, hne _ h8, Bool.not_false, if_pos,
      List.filter_nil, List.length_cons, List.length_nil]
  refine ⟨?_, hcount⟩
  rw [total_sources_eq r, hcount, h1, h2, h3, h4, h5, h6, h7, h8]

/-- An item with every optional field absent. -/
def blankItem : Item :=
  { title := none, name := none, url := none, link := none,
    description := none, summary := none, published := none, created := none,
    source := none, platform := none, score := none, comments := none }

/-- A report with exactly one record per source (test fixture). -/
def oneEachResults : CareerResults :=
  { career_opportunities := [blankItem], required_skills := [blankItem],
    job_market_trends := [blankItem], salary_information := [blankItem],
    learning_resources := [blankItem], community_discussions := [blankItem],
    linkedin_insights := [blankItem], quora_insights := [blankItem],
    skill_trends := none }

/-- C8 witness: a report with exactly one record per source. -/
theorem total_sources_found_spec_witness :
    total_sources oneEachResults = numNonemptySources oneEachResults ∧
      numNonemptySources oneEachResults = 8 :=
  total_sources_found_spec.2.2 oneEachResults rfl rfl rfl rfl rfl rfl rfl rfl

/- ------------------------------------------------------------------
   job_analyzer.py, JobMarketAnalyzer.extract_skills_from_content
   (lines 329-355)
   ------------------------------------------------------------------ -/

/-- A scraped search-result entry fed to the skill extractor. -/
structure SkillsContent where
  title : PyStr
  content : PyStr
deriving DecidableEq

def tech_skills : List PyStr :=
  [pyStr "python", pyStr "java", pyStr "javascript", pyStr "sql", pyStr "html",
   pyStr "css", pyStr "react", pyStr "angular", pyStr "vue",
   pyStr "node.js", pyStr "django", pyStr "flask", pyStr "spring",
   pyStr "mongodb", pyStr "postgresql", pyStr "mysql",
   pyStr "aws", pyStr "azure", pyStr "gcp", pyStr "docker",
   pyStr "kubernetes", pyStr "git", pyStr "jenkins", pyStr "terraform",
   pyStr "machine learning", pyStr "data science",
   pyStr "artificial intelligence", pyStr "deep learning",
   pyStr "tableau", pyStr "power bi", pyStr "excel", pyStr "r",
   pyStr "scala", pyStr "spark", pyStr "hadoop"]

def soft_skills : List PyStr :=
  [pyStr "communication", pyStr "leadership", pyStr "teamwork",
   pyStr "problem solving", pyStr "analytical", pyStr "project management",
   pyStr "agile", pyStr "scrum", pyStr "critical thinking", pyStr "creativity"]

structure ExtractedSkills where
  technical_skills : List PyStr
  soft_skills : List PyStr
  total_skills_identified : Nat
deriving DecidableEq

/-- `job_analyzer.py` lines 329-355: join the lowercased content of all
entries with spaces, then keep each vocabulary term present as a
substring. -/
def extract_skills_from_content (content_list : List SkillsContent) : ExtractedSkills :=
  let all_content := pyJoin (pyStr " ")
    (content_list.map (fun item => lowerStr item.content))
  let found_tech_skills := tech_skills.filter (fun skill => containsSub skill all_content)
  let found_soft_skills := soft_skills.filter (fun skill => containsSub skill all_content)
  { technical_skills := found_tech_skills
    soft_skills := found_soft_skills
    total_skills_identified := found_tech_skills.length + found_soft_skills.length }

/-- The space-joined raw content of all entries (spec side, not lowered). -/
def allContentOf (cl : List SkillsContent) : PyStr :=
  pyJoin (pyStr " ") (cl.map SkillsContent.content)

/-- Case-insensitive substring occurrence (spec side). -/
def occursCI (term text : PyStr) : Bool :=
  containsSub (lowerStr term) (lowerStr text)

theorem lowerStr_append (a b : PyStr) :
    lowerStr (a ++ b) = lowerStr a ++ lowerStr b := by
  unfold lowerStr
  exact List.map_append Char.toLower a b

theorem lowerStr_pyJoin_space (l : List PyStr) :
    lowerStr (pyJoin (pyStr " ") l) = pyJoin (pyStr " ") (l.map lowerStr) := by
  induction l with
  | nil => rfl
  | cons x xs ih =>
    cases xs with
    | nil => rfl
    | cons y ys =>
      show lowerStr (x ++ pyStr " " ++ pyJoin (pyStr " ") (y :: ys)) =
        lowerStr x ++ pyStr " " ++ pyJoin (pyStr " ") ((y :: ys).map lowerStr)
      rw [lowerStr_append, lowerStr_append, ih]
      rfl

theorem tech_skills_lower : ∀ t ∈ tech_skills, lowerStr t = t := by decide

theorem soft_skills_lower : ∀ t ∈ soft_skills, lowerStr t = t := by decide

/-- C7: the extractor returns exactly the vocabulary terms occurring
case-insensitively as substrings of the space-joined content of all
entries, and `total_skills_identified` is the sum of the two counts. -/
theorem extract_skills_spec (cl : List SkillsContent) :
    (extract_skills_from_content cl).technical_skills =
      tech_skills.filter (fun t => occursCI t (allContentOf cl))
  ∧ (extract_skills_from_content cl).soft_skills =
      soft_skills.filter (fun t => occursCI t (allContentOf cl))
  ∧ (extract_skills_from_content cl).total_skills_identified =
      (extract_skills_from_content cl).technical_skills.length +
        (extract_skills_from_content cl).soft_skills.length := by
  have hcontent : pyJoin (pyStr " ") (cl.map (fun item => lowerStr item.content)) =
      lowerStr (allContentOf cl) := by
    unfold allContentOf
    rw [lowerStr_pyJoin_space, List.map_map]
    rfl
  refine ⟨?_, ?_, rfl⟩
  · show tech_skills.filter (fun skill => containsSub skill
        (pyJoin (pyStr " ") (cl.map (fun item => lowerStr item.content)))) = _
    rw [hcontent]
    apply List.filter_congr
    intro t ht
    show containsSub t (lowerStr (allContentOf cl)) = occursCI t (allContentOf cl)
    unfold occursCI
    rw [tech_skills_lower t ht]
  · show soft_skills.filter (fun skill => containsSub skill
        (pyJoin (pyStr " ") (cl.map (fun item => lowerStr item.content)))) = _
    rw [hcontent]
    apply List.filter_congr
    intro t ht
    show containsSub t (lowerStr (allContentOf cl)) = occursCI t (allContentOf cl)
    unfold occursCI
    rw [soft_skills_lower t ht]

/- ------------------------------------------------------------------
   job_analyzer.py, JobMarketAnalyzer.analyze_salary_ranges (lines 420-440)
   ------------------------------------------------------------------ -/

/-- A salary-info entry collected by `get_salary_data`. -/
structure SalaryInfo where
  source : PyStr
  salaries_mentioned : List PyStr
  content : PyStr
deriving DecidableEq

def isDigitChar (c : Char) : Bool := '0' ≤ c && c ≤ '9'

/-- Valid body of a Python int literal: digits with single underscores
strictly between digits (ASCII digits only). -/
def validDigits : PyStr → Bool
  | [] => false
  | [c] => isDigitChar c
  | c :: d :: rest =>
    isDigitChar c &&
      (if d = '_' then
        (match rest with
         | [] => false
         | _ :: _ => validDigits rest)
      else validDigits (d :: rest))

/-- Numeric value of a digit/underscore body. -/
def digitsVal (s : PyStr) : Nat :=
  s.foldl (fun acc c => if c = '_' then acc else acc * 10 + (c.toNat - '0'.toNat)) 0

/-- Python `int(s)`: optional surrounding whitespace, optional sign,
then a digit body; `none` models the `ValueError` swallowed by the
`except` clause. -/
def pyInt? (s : PyStr) : Option Int :=
  match strip s with
  | '+' :: rest => if validDigits rest then some ((digitsVal rest : Nat) : Int) else none
  | '-' :: rest => if validDigits rest then some (-((digitsVal rest : Nat) : Int)) else none
  | t => if validDigits t then some ((digitsVal t : Nat) : Int) else none

/-- `salary.replace('$', '').replace(',', '').replace('k', '000')`. -/
def salaryClean (s : PyStr) : PyStr :=
  ((s.filter (fun c => c ≠ '$')).filter (fun c => c ≠ ',')).flatMap
    (fun c => if c = 'k' then pyStr "000" else [c])

/-- The `all_salaries` list: every salary string of every entry that
parses as an int after cleaning, in order. -/
def all_salaries (salary_info : List SalaryInfo) : List Int :=
  salary_info.flatMap
    (fun info => info.salaries_mentioned.filterMap (fun s => pyInt? (salaryClean s)))

inductive SalaryAnalysis where
  | stats (min_salary max_salary avg_salary : Int) (salary_count : Nat) : SalaryAnalysis
  | analysisMsg (msg : PyStr) : SalaryAnalysis
deriving DecidableEq

def sumInt (l : List Int) : Int := l.foldl (· + ·) 0

/-- `job_analyzer.py` lines 420-440: min/max/floor-average of the parsed
salaries, or the fixed no-data mapping. -/
def analyze_salary_ranges (salary_info : List SalaryInfo) : SalaryAnalysis :=
  match all_salaries salary_info with
  | [] => .analysisMsg (pyStr "No salary data found")
  | a :: rest =>
    .stats (rest.foldl min a) (rest.foldl max a)
      (Int.fdiv (sumInt (a :: rest)) (((a :: rest).length : Nat) : Int))
      (a :: rest).length

theorem foldl_min_le {l : List Int} : ∀ (a : Int), ∀ x ∈ a :: l, l.foldl min a ≤ x := by
  induction l with
  | nil =>
    intro a x hx
    simp at hx
    simp [hx]
  | cons b t ih =>
    intro a x hx
    show t.foldl min (min a b) ≤ x
    have hbase : t.foldl min (min a b) ≤ min a b := ih (min a b) _ (by simp)
    rcases List.mem_cons.mp hx with h1 | hx'
    · subst h1; exact le_trans hbase (min_le_left _ _)
    · rcases List.mem_cons.mp hx' with h2 | hx''
      · subst h2; exact le_trans hbase (min_le_right _ _)
      · exact ih (min a b) x (List.mem_cons_of_mem _ hx'')

theorem le_foldl_max {l : List Int} : ∀ (a : Int), ∀ x ∈ a :: l, x ≤ l.foldl max a := by
  induction l with
  | nil =>
    intro a x hx
    simp at hx
    simp [hx]
  | cons b t ih =>
    intro a x hx
    show x ≤ t.foldl max (max a b)
    have hbase : max a b ≤ t.foldl max (max a b) := ih (max a b) _ (by simp)
    rcases List.mem_cons.mp hx with h1 | hx'
    · subst h1; exact le_trans (le_max_left _ _) hbase
    · rcases List.mem_cons.mp hx' with h2 | hx''
      · subst h2; exact le_trans (le_max_right _ _) hbase
      · exact ih (max a b) x (List.mem_cons_of_mem _ hx'')

theorem foldl_add_eq (l : List Int) :
    ∀ init : Int, l.foldl (· + ·) init = init + l.foldl (· + ·) 0 := by
  induction l with
  | nil => intro init; simp
  | cons b t ih =>
    intro init
    show t.foldl _ (init + b) = init + t.foldl _ (0 + b)
    rw [ih (init + b), ih (0 + b)]
    ring

theorem sumInt_cons (x : Int) (l : List Int) : sumInt (x :: l) = x + sumInt l := by
  unfold sumInt
  show l.foldl _ (0 + x) = x + l.foldl _ 0
  rw [foldl_add_eq l (0 + x)]
  ring

theorem card_mul_le_sumInt {l : List Int} {lo : Int} (h : ∀ x ∈ l, lo ≤ x) :
    (l.length : Int) * lo ≤ sumInt l := by
  induction l with
  | nil => simp [sumInt]
  | cons x t ih =>
    rw [sumInt_cons]
    have hx := h x (by simp)
    have ht := ih (fun y hy => h y (List.mem_cons_of_mem _ hy))
    have hexp : ((t.length : Int) + 1) * lo = (t.length : Int) * lo + lo := by ring
    push_cast [List.length_cons]
    rw [hexp]
    linarith

theorem sumInt_le_card_mul {l : List Int} {hi : Int} (h : ∀ x ∈ l, x ≤ hi) :
    sumInt l ≤ (l.length : Int) * hi := by
  induction l with
  | nil => simp [sumInt]
  | cons x t ih =>
    rw [sumInt_cons]
    have hx := h x (by simp)
    have ht := ih (fun y hy => h y (List.mem_cons_of_mem _ hy))
    have hexp : ((t.length : Int) + 1) * hi = (t.length : Int) * hi + hi := by ring
    push_cast [List.length_cons]
    rw [hexp]
    linarith

/-- C10: whenever at least one salary string parses, the returned stats
satisfy `min_salary ≤ avg_salary ≤ max_salary` with `avg_salary` the floor
division of the sum by the count; with no parsed salary the function
returns exactly the fixed no-data mapping. -/
theorem analyze_salary_ranges_spec (salary_info : List SalaryInfo) :
    (all_salaries salary_info = [] →
      analyze_salary_ranges salary_info =
        SalaryAnalysis.analysisMsg (pyStr "No salary data found"))
  ∧ (∀ a rest, all_salaries salary_info = a :: rest →
      analyze_salary_ranges salary_info =
        SalaryAnalysis.stats (rest.foldl min a) (rest.foldl max a)
          (Int.fdiv (sumInt (a :: rest)) (((a :: rest).length : Nat) : Int))
          (a :: rest).length
      ∧ rest.foldl min a ≤
          Int.fdiv (sumInt (a :: rest)) (((a :: rest).length : Nat) : Int)
      ∧ Int.fdiv (sumInt (a :: rest)) (((a :: rest).length : Nat) : Int) ≤
          rest.foldl max a) := by
  constructor
  · intro h
    unfold analyze_salary_ranges
    rw [h]
  · intro a rest h
    have heq : analyze_salary_ranges salary_info =
        SalaryAnalysis.stats (rest.foldl min a) (rest.foldl max a)
          (Int.fdiv (sumInt (a :: rest)) (((a :: rest).length : Nat) : Int))
          (a :: rest).length := by
      unfold analyze_salary_ranges
      rw [h]
    set n : Int := (((a :: rest).length : Nat) : Int) with hn
    have hnpos : 0 < n := by
      rw [hn]
      exact_mod_cast Nat.succ_pos rest.length
    have hn0 : n ≠ 0 := ne_of_gt hnpos
    have hfd : Int.fdiv (sumInt (a :: rest)) n = sumInt (a :: rest) / n :=
      Int.fdiv_eq_ediv _ (le_of_lt hnpos)
    have hlo : n * rest.foldl min a ≤ sumInt (a :: rest) := by
      have hba : ∀ x ∈ a :: rest, rest.foldl min a ≤ x := foldl_min_le a
      have := card_mul_le_sumInt hba
      calc n * rest.foldl min a = ((a :: rest).length : Int) * rest.foldl min a := by
            rw [hn]
        _ ≤ sumInt (a :: rest) := this
    have hhi : sumInt (a :: rest) ≤ n * rest.foldl max a := by
      have hba : ∀ x ∈ a :: rest, x ≤ rest.foldl max a := le_foldl_max a
      have := sumInt_le_card_mul hba
      calc sumInt (a :: rest) ≤ ((a :: rest).length : Int) * rest.foldl max a := this
        _ = n * rest.foldl max a := by rw [hn]
    refine ⟨heq, ?_, ?_⟩
    · rw [hfd]
      calc rest.foldl min a = n * rest.foldl min a / n :=
            (Int.mul_ediv_cancel_left _ hn0).symm
        _ ≤ sumInt (a :: rest) / n := Int.ediv_le_ediv hnpos hlo
    · rw [hfd]
      calc sumInt (a :: rest) / n ≤ n * rest.foldl max a / n :=
            Int.ediv_le_ediv hnpos hhi
        _ = rest.foldl max a := Int.mul_ediv_cancel_left _ hn0

/-- Fixture for the C10 witness: two parsable salary strings and one
unparsable one. -/
def salaryFixture : List SalaryInfo :=
  [⟨pyStr "Glassdoor", [pyStr "$120k", pyStr "$80,000", pyStr "competitive"], pyStr ""⟩]

/-- C10 witness: on the fixture, the parsed salaries are 120000 and 80000,
and the returned stats are min 80000, max 120000, avg 100000, count 2. -/
theorem analyze_salary_ranges_spec_witness :
    all_salaries salaryFixture = [120000, 80000]
  ∧ analyze_salary_ranges salaryFixture = SalaryAnalysis.stats 80000 120000 100000 2
  ∧ (80000 : Int) ≤ 100000 ∧ (100000 : Int) ≤ 120000 := by
  have h := (analyze_salary_ranges_spec salaryFixture).2 120000 [80000] (by decide)
  exact ⟨by decide, by rw [h.1]; decide, by decide, by decide⟩

/- ------------------------------------------------------------------
   Substring toolkit for the renderer proofs
   ------------------------------------------------------------------ -/

/-- Concatenation of a list of strings (`+=` accumulation in the code). -/
def concatAll : List PyStr → PyStr
  | [] => []
  | x :: t => x ++ concatAll t

theorem concatAll_cons (x : PyStr) (l : List PyStr) :
    concatAll (x :: l) = x ++ concatAll l := rfl

theorem leadsWith_append_self : ∀ (x q : PyStr), leadsWith x (x ++ q) = true := by
  intro x
  induction x with
  | nil => intro q; rfl
  | cons a t ih =>
    intro q
    simp [leadsWith, ih q]

theorem leadsWith_append_of {x : PyStr} :
    ∀ {p : PyStr} (q : PyStr), leadsWith x p = true → leadsWith x (p ++ q) = true := by
  induction x with
  | nil => intro p q h; rfl
  | cons a xt ih =>
    intro p q h
    cases p with
    | nil => simp [leadsWith] at h
    | cons b pt =>
      simp only [leadsWith, Bool.and_eq_true, decide_eq_true_eq] at h
      simp only [List.cons_append, leadsWith, Bool.and_eq_true, decide_eq_true_eq]
      exact ⟨h.1, ih q h.2⟩

theorem containsSub_nil_needle : ∀ h : PyStr, containsSub [] h = true := by
  intro h
  cases h with
  | nil => rfl
  | cons c t => simp [containsSub, leadsWith]

theorem containsSub_self_append (x q : PyStr) : containsSub x (x ++ q) = true := by
  cases x with
  | nil => exact containsSub_nil_needle q
  | cons c t =>
    have h := leadsWith_append_self (c :: t) q
    rw [List.cons_append] at h
    simp [containsSub, h]

theorem containsSub_append_right (p : PyStr) {x q : PyStr}
    (h : containsSub x q = true) : containsSub x (p ++ q) = true := by
  induction p with
  | nil => simpa using h
  | cons c pt ih =>
    simp only [List.cons_append, containsSub, Bool.or_eq_true]
    exact Or.inr (by simpa using ih)

theorem containsSub_append_left (p q : PyStr) {x : PyStr}
    (h : containsSub x p = true) : containsSub x (p ++ q) = true := by
  induction p with
  | nil =>
    have hx : x = [] := by
      cases x with
      | nil => rfl
      | cons a t => simp [containsSub] at h
    subst hx
    exact containsSub_nil_needle _
  | cons c pt ih =>
    simp only [containsSub, Bool.or_eq_true] at h
    simp only [List.cons_append, containsSub, Bool.or_eq_true]
    rcases h with h | h
    · exact Or.inl (by
        have h2 := leadsWith_append_of q h
        rwa [List.cons_append] at h2)
    · exact Or.inr (ih h)

/- ------------------------------------------------------------------
   job_analyzer.py, get_layoff_data exception handler (lines 122-124)
   ------------------------------------------------------------------ -/

/-- A row of the recent-layoffs table scraped from layoffs.fyi. -/
structure LayoffRecord where
  company : PyStr
  employees_laid_off : PyStr
  date : PyStr
deriving DecidableEq

/-- The success payload built by the `try:` body of `get_layoff_data`
(the body itself performs network I/O and regex scraping and is therefore
a parameter of the embedding; the embedded function is the call-site
exception handling). -/
structure LayoffSuccess where
  statistics : List (PyStr × (PyStr × PyStr))
  recent_layoffs : List LayoffRecord
  relevant_layoffs : List LayoffRecord
  impact_assessment : PyStr
deriving DecidableEq

/-- The dict stored for the layoff source: either the four-key success
mapping, or the two-key `{'error': ..., 'source': ...}` mapping produced
by the `except` clause (`job_analyzer.py` lines 122-124). -/
inductive LayoffResult where
  | ok : LayoffSuccess → PyStr → LayoffResult
  | err : PyStr → PyStr → LayoffResult
deriving DecidableEq

def get_layoff_data (attempt : Except PyStr LayoffSuccess) : LayoffResult :=
  match attempt with
  | .ok d => .ok d (pyStr "https://layoffs.fyi/")
  | .error e => .err e (pyStr "https://layoffs.fyi/")

/-- The top-level keys of the dict stored for the layoff source. -/
def layoffResultKeys : LayoffResult → List PyStr
  | .ok _ _ => [pyStr "statistics", pyStr "recent_layoffs",
      pyStr "job_relevance", pyStr "source"]
  | .err _ _ => [pyStr "error", pyStr "source"]

/- ------------------------------------------------------------------
   main.py, generate_career_report fetch call sites (lines 279-335)
   ------------------------------------------------------------------ -/

/-- The outcome of each fetcher's `try:` body (network I/O, parameterised):
`.error` corresponds to an exception escaping the body. -/
structure FetchOutcomes where
  career_opportunities : Except PyStr (List Item)
  required_skills : Except PyStr (List Item)
  job_market_trends : Except PyStr (List Item)
  salary_information : Except PyStr (List Item)
  learning_resources : Except PyStr (List Item)
  community_discussions : Except PyStr (List Item)
  linkedin_insights : Except PyStr (List Item)
  quora_insights : Except PyStr (List Item)
  skill_trends : Except PyStr SkillTrends

/-- The `try/except` shape shared by every list-returning fetcher of
`CareerResearchTool` (`search_google_news`, `search_indeed_insights`,
`search_linkedin_insights`, `search_coursera_skills`,
`search_glassdoor_salaries`, `search_reddit_career_advice`,
`search_quora_answers`): return the body's list, or `[]` when it raises. -/
def fetchList (attempt : Except PyStr (List Item)) : List Item :=
  match attempt with
  | .ok records => records
  | .error _ => []

/-- `analyze_skill_trends` returns its trends dict, or `{}` when the body
raises. -/
def fetchTrends (attempt : Except PyStr SkillTrends) : Option SkillTrends :=
  match attempt with
  | .ok t => some t
  | .error _ => none

/-- `main.py` lines 279-335: store each fetcher's result under its key. -/
def generate_career_report (o : FetchOutcomes) : CareerResults :=
  { career_opportunities := fetchList o.career_opportunities
    required_skills := fetchList o.required_skills
    job_market_trends := fetchList o.job_market_trends
    salary_information := fetchList o.salary_information
    learning_resources := fetchList o.learning_resources
    community_discussions := fetchList o.community_discussions
    linkedin_insights := fetchList o.linkedin_insights
    quora_insights := fetchList o.quora_insights
    skill_trends := fetchTrends o.skill_trends }

/- ------------------------------------------------------------------
   main.py, _generate_career_html_report (lines 462-677)
   ------------------------------------------------------------------ -/

/-- Truthiness of an optional string dict entry (`None` and `""` falsy). -/
def optTruthy : Option PyStr → Bool
  | some s => !s.isEmpty
  | none => false

/-- Truthiness of an optional int dict entry (`None` and `0` falsy). -/
def intTruthy : Option Int → Bool
  | some n => !(n == 0)
  | none => false

def itemTitle (item : Item) : PyStr :=
  item.title.getD (item.name.getD (pyStr "No title"))

def itemUrl (item : Item) : PyStr :=
  item.url.getD (item.link.getD (pyStr "#"))

def itemDescription (item : Item) : PyStr :=
  item.description.getD (item.summary.getD [])

/-- The per-record card emitted inside each research section
(`main.py` lines 650-667): raw interpolation of url, title, description
and metadata — no escaping. -/
def renderItem (section_name : PyStr) (item : Item) : PyStr :=
  concatAll
    [pyStr "\n                    <div class=\"article\">\n                        <h3><a href=\"",
     itemUrl item,
     pyStr "\" target=\"_blank\">",
     itemTitle item,
     pyStr "</a></h3>\n                        ",
     (if (itemDescription item).isEmpty then [] else
       concatAll [pyStr "<p>", itemDescription item, pyStr "</p>"]),
     pyStr "\n                        <div>\n                            <span class=\"source-badge\">",
     section_name,
     pyStr "</span>\n                            ",
     (if optTruthy item.published || optTruthy item.created then
       pyStr "<strong>Published:</strong> " ++ item.published.getD (item.created.getD [])
      else []),
     pyStr "\n                            ",
     (if optTruthy item.source || optTruthy item.platform then
       pyStr "<strong>Source:</strong> " ++ item.source.getD (item.platform.getD [])
      else []),
     pyStr "\n                            ",
     (if intTruthy item.score then
       pyStr "<strong>Score:</strong> 👍 " ++ intStr (item.score.getD 0)
      else []),
     pyStr "\n                            ",
     (if intTruthy item.comments then
       pyStr "<strong>Comments:</strong> 💬 " ++ intStr (item.comments.getD 0)
      else []),
     pyStr "\n                        </div>\n                    </div>\n                    "]

/-- One research section (`main.py` lines 644-668): emitted only when the
source list is truthy (non-empty). -/
def sectionHtml (items : List Item) (section_name : PyStr) : PyStr :=
  if items.isEmpty then [] else
    concatAll
      [pyStr "\n                <div class=\"section\">\n                    <h2>",
       section_name,
       pyStr " (",
       natStr items.length,
       pyStr " results)</h2>\n                ",
       concatAll (items.map (renderItem section_name)),
       pyStr "</div>"]

/-- The eight research sections in fixed order (`main.py` lines 633-668). -/
def sectionsHtml (r : CareerResults) : PyStr :=
  concatAll
    [sectionHtml r.career_opportunities (pyStr "💼 Career Opportunities"),
     sectionHtml r.required_skills (pyStr "🔧 Required Skills"),
     sectionHtml r.job_market_trends (pyStr "📈 Job Market Trends"),
     sectionHtml r.salary_information (pyStr "💰 Salary Information"),
     sectionHtml r.learning_resources (pyStr "🎓 Learning Resources"),
     sectionHtml r.community_discussions (pyStr "💬 Community Discussions"),
     sectionHtml r.linkedin_insights (pyStr "👔 LinkedIn Insights"),
     sectionHtml r.quora_insights (pyStr "🤔 Quora Insights")]

/-- Key-findings section (`main.py` lines 592-600). -/
def findingsSection (s : Summary) : PyStr :=
  if s.key_findings.isEmpty then [] else
    concatAll
      [pyStr "\n            <div class=\"section\">\n                <h2>🔍 Key Findings</h2>\n            ",
       concatAll (s.key_findings.map (fun finding =>
         concatAll [pyStr "<div class=\"article\"><p>✅ ", finding, pyStr "</p></div>"])),
       pyStr "</div>"]

/-- One skill-trends block (`main.py` lines 609-629). -/
def trendBlock (header : PyStr) (skills : List PyStr) : PyStr :=
  if skills.isEmpty then [] else
    concatAll
      [pyStr "\n                <div class=\"skill-category\">\n                    <h3>",
       header,
       pyStr "</h3>\n                    <p>",
       pyJoin (pyStr ", ") skills,
       pyStr "</p>\n                </div>\n                "]

/-- Skill-trends section (`main.py` lines 602-630); `{}` (none) is falsy
and suppresses the section. -/
def trendsSection (r : CareerResults) : PyStr :=
  match r.skill_trends with
  | none => []
  | some t =>
    concatAll
      [pyStr "\n            <div class=\"section\">\n                <h2>📊 Skill Trends Analysis</h2>\n            ",
       trendBlock (pyStr "🚀 High Demand Skills") t.high_demand_skills,
       trendBlock (pyStr "🔥 Emerging Skills") t.emerging_skills,
       trendBlock (pyStr "💼 Foundational Skills") t.traditional_skills,
       pyStr "</div>"]

/-- `summary['market_outlook'].split()[0].lower()`. -/
def outlookCssClass (s : PyStr) : PyStr :=
  lowerStr ((s.dropWhile Char.isWhitespace).takeWhile (fun c => !c.isWhitespace))

/-- The static stylesheet of the report head (`main.py` lines 472-548). -/
def cssBlock : PyStr := pyStr
  "                body \x7b \n                    font-family: \x27Segoe UI\x27, Tahoma, Geneva, Verdana, sans-serif; \n                    margin: 0; \n                    padding: 20px; \n                    background: linear-gradient(135deg, #667eea 0%, #764ba2 100%);\n                    min-height: 100vh;\n                \x7d\n                .container \x7b\n                    max-width: 1200px;\n                    margin: 0 auto;\n                    background: white;\n                    border-radius: 15px;\n                    box-shadow: 0 10px 30px rgba(0,0,0,0.2);\n                    overflow: hidden;\n                \x7d\n                .header \x7b \n                    background: linear-gradient(135deg, #2c3e50, #3498db);\n                    color: white;\n                    padding: 30px;\n                    text-align: center;\n                \x7d\n                .header h1 \x7b margin: 0; font-size: 2.5em; \x7d\n                .summary \x7b \n                    background: #f8f9fa; \n                    padding: 25px; \n                    border-bottom: 3px solid #e9ecef;\n                \x7d\n                .summary-grid \x7b\n                    display: grid;\n                    grid-template-columns: repeat(auto-fit, minmax(250px, 1fr));\n                    gap: 15px;\n                    margin-top: 15px;\n                \x7d\n                .summary-item \x7b\n                    background: white;\n                    padding: 15px;\n                    border-radius: 8px;\n                    box-shadow: 0 2px 5px rgba(0,0,0,0.1);\n                \x7d\n                .section \x7b \n                    padding: 25px; \n                    border-bottom: 1px solid #e9ecef;\n                \x7d\n                .section:last-child \x7b border-bottom: none; \x7d\n                .article \x7b \n                    border: 1px solid #ddd; \n                    padding: 20px; \n                    margin: 15px 0; \n                    border-radius: 8px;\n                    background: white;\n                    transition: transform 0.2s;\n                \x7d\n                .article:hover \x7b \n                    transform: translateY(-2px); \n                    box-shadow: 0 5px 15px rgba(0,0,0,0.1);\n                \x7d\n                .market-positive \x7b color: #27ae60; font-weight: bold; \x7d\n                .market-moderate \x7b color: #f39c12; font-weight: bold; \x7d\n                .market-limited \x7b color: #e74c3c; font-weight: bold; \x7d\n                .source-badge \x7b\n                    background: #3498db;\n                    color: white;\n                    padding: 3px 8px;\n                    border-radius: 12px;\n                    font-size: 0.8em;\n                    margin-right: 10px;\n                \x7d\n                a \x7b color: #2980b9; text-decoration: none; \x7d\n                a:hover \x7b text-decoration: underline; \x7d\n                .skill-category \x7b\n                    margin: 10px 0;\n                    padding: 10px;\n                    border-left: 4px solid #3498db;\n                    background: #f8f9fa;\n                \x7d\n"

/-- The opening f-string of the HTML report (`main.py` lines 466-590):
title, stylesheet, header and executive-summary grid. -/
def htmlHead (s : Summary) : PyStr :=
  concatAll
    [pyStr "\n        <!DOCTYPE html>",
     pyStr "\n        <html>\n        <head>\n            <title>Career Research Report - ",
     s.degree,
     pyStr "</title>\n            <meta charset=\"UTF-8\">\n            <style>\n",
     cssBlock,
     pyStr "            </style>\n        </head>\n        <body>\n            <div class=\"container\">\n                <div class=\"header\">\n                    <h1>🎓 Career Research Report</h1>\n                    <h2>",
     s.degree,
     pyStr " for ",
     s.experience_level,
     pyStr "</h2>\n                    <h3>Skills: ",
     s.skills_focus,
     pyStr " | Market: ",
     s.job_market,
     pyStr " | Year: ",
     s.target_year,
     pyStr "</h3>\n                </div>\n                \n                <div class=\"summary\">\n                    <h3>📊 Executive Summary</h3>\n                    <div class=\"summary-grid\">\n                        <div class=\"summary-item\">\n                            <strong>Degree/Qualification:</strong><br>",
     s.degree,
     pyStr "\n                        </div>\n                        <div class=\"summary-item\">\n                            <strong>Experience Level:</strong><br>",
     s.experience_level,
     pyStr "\n                        </div>\n                        <div class=\"summary-item\">\n                            <strong>Skills Focus:</strong><br>",
     s.skills_focus,
     pyStr "\n                        </div>\n                        <div class=\"summary-item\">\n                            <strong>Job Market:</strong><br>",
     s.job_market,
     pyStr "\n                        </div>\n                        <div class=\"summary-item\">\n                            <strong>Target Year:</strong><br>",
     s.target_year,
     pyStr "\n                        </div>\n                        <div class=\"summary-item\">\n                            <strong>Market Outlook:</strong><br>\n                            <span class=\"market-",
     outlookCssClass s.market_outlook,
     pyStr "\">\n                                ",
     s.market_outlook,
     pyStr "\n                            </span>\n                        </div>\n                        <div class=\"summary-item\">\n                            <strong>Sources Analyzed:</strong><br>",
     natStr s.total_sources_found,
     pyStr "\n                        </div>\n                        <div class=\"summary-item\">\n                            <strong>Generated:</strong><br>",
     s.report_generated,
     pyStr "\n                        </div>\n                    </div>\n                </div>\n        "]

def htmlTail : PyStr :=
  pyStr "\n            </div>\n        </body>\n        </html>\n        "

/-- `main.py` lines 462-677: the full HTML document. -/
def generate_career_html_report (r : CareerResults) (s : Summary) : PyStr :=
  htmlHead s ++ (findingsSection s ++ (trendsSection r ++ (sectionsHtml r ++ htmlTail)))

/- ------------------------------------------------------------------
   report_generator.py, create_layoff_section table rows (lines 189-196)
   ------------------------------------------------------------------ -/

/-- One row of the recent-layoffs table: raw interpolation of the scraped
company name, headcount and date. -/
def layoffRow (layoff : LayoffRecord) : PyStr :=
  concatAll
    [pyStr "\n            <tr>\n                <td>",
     layoff.company,
     pyStr "</td>\n                <td>",
     layoff.employees_laid_off,
     pyStr "</td>\n                <td>",
     layoff.date,
     pyStr "</td>\n            </tr>\n            "]

/- ------------------------------------------------------------------
   main.py, save_career_report JSON output (lines 446-455)
   ------------------------------------------------------------------ -/

/-- JSON string escaping (quotes, backslashes, newlines; other control
characters do not occur in the modelled data). -/
def jsonEscape : PyStr → PyStr
  | [] => []
  | c :: t =>
    (if c = '"' then pyStr "\\\"" else if c = '\\' then pyStr "\\\\"
     else if c = '\n' then pyStr "\\n" else [c]) ++ jsonEscape t

def jsonStr (s : PyStr) : PyStr := pyStr "\"" ++ jsonEscape s ++ pyStr "\""

def jsonStrField (key : PyStr) (v : Option PyStr) : List PyStr :=
  match v with
  | some s => [jsonStr key ++ pyStr ": " ++ jsonStr s]
  | none => []

def jsonIntField (key : PyStr) (v : Option Int) : List PyStr :=
  match v with
  | some n => [jsonStr key ++ pyStr ": " ++ intStr n]
  | none => []

/-- JSON object for one record; only the keys present in the record are
serialised (the per-source record shapes carry different key sets). -/
def itemJson (it : Item) : PyStr :=
  pyStr "\x7b" ++ pyJoin (pyStr ", ")
    (jsonStrField (pyStr "title") it.title ++
     jsonStrField (pyStr "name") it.name ++
     jsonStrField (pyStr "url") it.url ++
     jsonStrField (pyStr "link") it.link ++
     jsonStrField (pyStr "description") it.description ++
     jsonStrField (pyStr "summary") it.summary ++
     jsonStrField (pyStr "published") it.published ++
     jsonStrField (pyStr "created") it.created ++
     jsonStrField (pyStr "source") it.source ++
     jsonStrField (pyStr "platform") it.platform ++
     jsonIntField (pyStr "score") it.score ++
     jsonIntField (pyStr "comments") it.comments) ++ pyStr "\x7d"

def itemsJson (l : List Item) : PyStr :=
  pyStr "[" ++ pyJoin (pyStr ", ") (l.map itemJson) ++ pyStr "]"

def strListJson (l : List PyStr) : PyStr :=
  pyStr "[" ++ pyJoin (pyStr ", ") (l.map jsonStr) ++ pyStr "]"

def trendsJson : Option SkillTrends → PyStr
  | none => pyStr "\x7b\x7d"
  | some t =>
    pyStr "\x7b\"high_demand_skills\": " ++ strListJson t.high_demand_skills ++
    pyStr ", \"emerging_skills\": " ++ strListJson t.emerging_skills ++
    pyStr ", \"traditional_skills\": " ++ strListJson t.traditional_skills ++
    pyStr "\x7d"

def summaryJson (s : Summary) : PyStr :=
  pyStr "\x7b\"degree\": " ++ jsonStr s.degree ++
  pyStr ", \"experience_level\": " ++ jsonStr s.experience_level ++
  pyStr ", \"skills_focus\": " ++ jsonStr s.skills_focus ++
  pyStr ", \"job_market\": " ++ jsonStr s.job_market ++
  pyStr ", \"target_year\": " ++ jsonStr s.target_year ++
  pyStr ", \"total_sources_found\": " ++ natStr s.total_sources_found ++
  pyStr ", \"market_outlook\": " ++ jsonStr s.market_outlook ++
  pyStr ", \"career_areas_covered\": " ++ strListJson s.career_areas_covered ++
  pyStr ", \"report_generated\": " ++ jsonStr s.report_generated ++
  pyStr ", \"key_findings\": " ++ strListJson s.key_findings ++
  pyStr "\x7d"

/-- The JSON dump of the full results mapping (`json.dump(self.results, ...)`;
whitespace/indentation of `json.dump(..., indent=2)` is not modelled). -/
def reportJson (r : CareerResults) (s : Summary) : PyStr :=
  pyStr "\x7b\"career_opportunities\": " ++ itemsJson r.career_opportunities ++
  pyStr ", \"required_skills\": " ++ itemsJson r.required_skills ++
  pyStr ", \"job_market_trends\": " ++ itemsJson r.job_market_trends ++
  pyStr ", \"salary_information\": " ++ itemsJson r.salary_information ++
  pyStr ", \"learning_resources\": " ++ itemsJson r.learning_resources ++
  pyStr ", \"community_discussions\": " ++ itemsJson r.community_discussions ++
  pyStr ", \"linkedin_insights\": " ++ itemsJson r.linkedin_insights ++
  pyStr ", \"quora_insights\": " ++ itemsJson r.quora_insights ++
  pyStr ", \"skill_trends\": " ++ trendsJson r.skill_trends ++
  pyStr ", \"summary\": " ++ summaryJson s ++
  pyStr "\x7d"

theorem append_ne_nil_of_right {p q : PyStr} (h : q ≠ []) : p ++ q ≠ [] := by
  intro hc
  rw [List.append_eq_nil] at hc
  exact h hc.2

theorem contains_in_concatAll_map {t : PyStr} {f : Item → PyStr} {l : List Item} {x : Item}
    (hx : x ∈ l) (h : containsSub t (f x) = true) :
    containsSub t (concatAll (l.map f)) = true := by
  induction l with
  | nil => cases hx
  | cons a rest ih =>
    rw [List.map_cons, concatAll_cons]
    rcases List.mem_cons.mp hx with h1 | h2
    · subst h1
      exact containsSub_append_left _ _ h
    · exact containsSub_append_right _ (ih h2)

/-- C3 counterexample: an injected fetch exception in `get_layoff_data`
stores the two-key mapping `{'error': ..., 'source': ...}` for the layoff
source — a non-empty mapping, not the empty list/mapping the claim
requires. -/
theorem layoff_error_mapping_nonempty_cex :
    get_layoff_data (Except.error (pyStr "boom")) =
      LayoffResult.err (pyStr "boom") (pyStr "https://layoffs.fyi/")
  ∧ layoffResultKeys (get_layoff_data (Except.error (pyStr "boom"))) =
      [pyStr "error", pyStr "source"]
  ∧ layoffResultKeys (get_layoff_data (Except.error (pyStr "boom"))) ≠ [] :=
  ⟨rfl, rfl, by decide⟩

/-- C3 (amended): for every fetch failure in a `CareerResearchTool`
list-returning fetcher, the result stored for that source is the empty
list (and the failed skill-trends dict is empty); for any combination of
failures the pipeline still produces the HTML document (starting with the
DOCTYPE preamble) and a non-empty JSON dump.  (In `JobMarketAnalyzer`,
by contrast, a failed fetch stores a non-empty `{'error', 'source'}`
mapping — see the counterexample.) -/
theorem fetch_failures_isolated (o : FetchOutcomes) (d e s j y now : PyStr) :
    (∀ msg, o.career_opportunities = Except.error msg →
      (generate_career_report o).career_opportunities = [])
  ∧ (∀ msg, o.required_skills = Except.error msg →
      (generate_career_report o).required_skills = [])
  ∧ (∀ msg, o.job_market_trends = Except.error msg →
      (generate_career_report o).job_market_trends = [])
  ∧ (∀ msg, o.salary_information = Except.error msg →
      (generate_career_report o).salary_information = [])
  ∧ (∀ msg, o.learning_resources = Except.error msg →
      (generate_career_report o).learning_resources = [])
  ∧ (∀ msg, o.community_discussions = Except.error msg →
      (generate_career_report o).community_discussions = [])
  ∧ (∀ msg, o.linkedin_insights = Except.error msg →
      (generate_career_report o).linkedin_insights = [])
  ∧ (∀ msg, o.quora_insights = Except.error msg →
      (generate_career_report o).quora_insights = [])
  ∧ (∀ msg, o.skill_trends = Except.error msg →
      (generate_career_report o).skill_trends = none)
  ∧ leadsWith (pyStr "\n        <!DOCTYPE html>")
      (generate_career_html_report (generate_career_report o)
        (generate_career_summary (generate_career_report o) d e s j y now)) = true
  ∧ reportJson (generate_career_report o)
      (generate_career_summary (generate_career_report o) d e s j y now) ≠ [] := by
  refine ⟨?_, ?_, ?_, ?_, ?_, ?_, ?_, ?_, ?_, ?_, ?_⟩
  · intro msg h; simp [generate_career_report, fetchList, h]
  · intro msg h; simp [generate_career_report, fetchList, h]
  · intro msg h; simp [generate_career_report, fetchList, h]
  · intro msg h; simp [generate_career_report, fetchList, h]
  · intro msg h; simp [generate_career_report, fetchList, h]
  · intro msg h; simp [generate_career_report, fetchList, h]
  · intro msg h; simp [generate_career_report, fetchList, h]
  · intro msg h; simp [generate_career_report, fetchList, h]
  · intro msg h; simp [generate_career_report, fetchTrends, h]
  · have hdoc : leadsWith (pyStr "\n        <!DOCTYPE html>")
        (htmlHead (generate_career_summary (generate_career_report o) d e s j y now)) = true := by
      unfold htmlHead
      rw [concatAll_cons]
      exact leadsWith_append_self _ _
    unfold generate_career_html_report
    exact leadsWith_append_of _ hdoc
  · unfold reportJson
    exact append_ne_nil_of_right (by decide)

/-- All-failing fetch outcomes (test fixture). -/
def failedOutcomes : FetchOutcomes :=
  { career_opportunities := Except.error (pyStr "timeout")
    required_skills := Except.error (pyStr "timeout")
    job_market_trends := Except.error (pyStr "timeout")
    salary_information := Except.error (pyStr "timeout")
    learning_resources := Except.error (pyStr "timeout")
    community_discussions := Except.error (pyStr "timeout")
    linkedin_insights := Except.error (pyStr "timeout")
    quora_insights := Except.error (pyStr "timeout")
    skill_trends := Except.error (pyStr "timeout") }

/-- C3 witness: with every fetcher failing, all sources are stored as
empty, and both outputs are still produced. -/
theorem fetch_failures_isolated_witness :
    (generate_career_report failedOutcomes).career_opportunities = []
  ∧ (generate_career_report failedOutcomes).skill_trends = none
  ∧ leadsWith (pyStr "\n        <!DOCTYPE html>")
      (generate_career_html_report (generate_career_report failedOutcomes)
        (generate_career_summary (generate_career_report failedOutcomes)
          (pyStr "dell") (pyStr "layoff") [] [] (pyStr "2025")
          (pyStr "2025-01-01 12:00:00"))) = true
  ∧ reportJson (generate_career_report failedOutcomes)
      (generate_career_summary (generate_career_report failedOutcomes)
        (pyStr "dell") (pyStr "layoff") [] [] (pyStr "2025")
        (pyStr "2025-01-01 12:00:00")) ≠ [] := by
  have h := fetch_failures_isolated failedOutcomes (pyStr "dell") (pyStr "layoff")
    [] [] (pyStr "2025") (pyStr "2025-01-01 12:00:00")
  exact ⟨h.1 (pyStr "timeout") rfl,
    h.2.2.2.2.2.2.2.2.1 (pyStr "timeout") rfl,
    h.2.2.2.2.2.2.2.2.2.1,
    h.2.2.2.2.2.2.2.2.2.2⟩

/-- C9: the renderers interpolate the scraped title, description and
company-name fields into the HTML verbatim (as raw substrings, unescaped);
in particular every career-opportunities record's title appears verbatim
in the full generated document. -/
theorem html_interpolation_unescaped :
    (∀ name item, containsSub (itemTitle item) (renderItem name item) = true)
  ∧ (∀ name item, itemDescription item ≠ [] →
      containsSub (itemDescription item) (renderItem name item) = true)
  ∧ (∀ layoff : LayoffRecord, containsSub layoff.company (layoffRow layoff) = true)
  ∧ (∀ (r : CareerResults) (s : Summary) (item : Item),
      item ∈ r.career_opportunities →
      containsSub (itemTitle item) (generate_career_html_report r s) = true) := by
  have hrender_title : ∀ name item,
      containsSub (itemTitle item) (renderItem name item) = true := by
    intro name item
    unfold renderItem
    simp only [concatAll_cons]
    apply containsSub_append_right
    apply containsSub_append_right
    apply containsSub_append_right
    exact containsSub_self_append _ _
  refine ⟨hrender_title, ?_, ?_, ?_⟩
  · intro name item hne
    have hfalse : (itemDescription item).isEmpty = false := by
      cases hdesc : itemDescription item with
      | nil => exact absurd hdesc hne
      | cons a t => rfl
    unfold renderItem
    simp only [concatAll_cons, hfalse, Bool.false_eq_true, if_false]
    apply containsSub_append_right
    apply containsSub_append_right
    apply containsSub_append_right
    apply containsSub_append_right
    apply containsSub_append_right
    apply containsSub_append_left
    apply containsSub_append_right
    exact containsSub_self_append _ _
  · intro layoff
    unfold layoffRow
    simp only [concatAll_cons]
    apply containsSub_append_right
    exact containsSub_self_append _ _
  · intro r s item hmem
    have hne : r.career_opportunities.isEmpty = false := by
      cases hc : r.career_opportunities with
      | nil => rw [hc] at hmem; cases hmem
      | cons a t => rfl
    have hsec : containsSub (itemTitle item)
        (sectionHtml r.career_opportunities (pyStr "💼 Career Opportunities")) = true := by
      unfold sectionHtml
      simp only [hne, Bool.false_eq_true, if_false, concatAll_cons]
      apply containsSub_append_right
      apply containsSub_append_right
      apply containsSub_append_right
      apply containsSub_append_right
      apply containsSub_append_right
      apply containsSub_append_left
      exact contains_in_concatAll_map hmem (hrender_title _ item)
    unfold generate_career_html_report
    apply containsSub_append_right
    apply containsSub_append_right
    apply containsSub_append_right
    apply containsSub_append_left
    unfold sectionsHtml
    simp only [concatAll_cons]
    exact containsSub_append_left _ _ hsec

/-- A record whose title and description carry HTML markup. -/
def scriptItem : Item :=
  { blankItem with
    title := some (pyStr "<script>alert(1)</script>"),
    description := some (pyStr "<b>bold</b>") }

/-- C9 witness: markup in a scraped title/description reaches the output
verbatim, unescaped. -/
theorem html_interpolation_unescaped_witness :
    itemDescription scriptItem ≠ []
  ∧ containsSub (pyStr "<script>alert(1)</script>")
      (renderItem (pyStr "💼 Career Opportunities") scriptItem) = true
  ∧ containsSub (pyStr "<b>bold</b>")
      (renderItem (pyStr "💼 Career Opportunities") scriptItem) = true := by
  refine ⟨by decide, ?_, ?_⟩
  · exact html_interpolation_unescaped.1 (pyStr "💼 Career Opportunities") scriptItem
  · exact html_interpolation_unescaped.2.1 (pyStr "💼 Career Opportunities") scriptItem
      (by decide)

end JobAnalysis
